import Mathlib

/-!
Shallow embedding of `verible/verilog/tools/ls/verible-lsp-adapter.cc`
(the editor-intelligence adapter of the Verible language server) and proofs
of the testable properties the spec states about it.

The logic of the adapter itself (diagnostic aggregation, code-action generation,
format-edit building, highlight extraction, module metadata extraction) is
translated from the source.  External collaborators that the source merely
calls (the buffer tracker, the CST accessor helpers, the formatter, the
outline builder, `rangeOverlap` from the LSP protocol operators header) are
represented by record fields or oracle parameters; where the behavior of a
collaborator is load-bearing for a property it is modelled from the spec, and
marked as such in its doc comment.
-/

set_option autoImplicit false

namespace Verilog

/-- LSP position: zero-based line / character, as the C++ `int` pair. -/
structure Position where
  line : Int
  character : Int
deriving DecidableEq, Repr

/-- LSP range with a start and an end position. -/
structure TextRange where
  start : Position
  endPos : Position
deriving DecidableEq, Repr

/-- LSP diagnostic severity, as used by the adapter. -/
inductive DiagnosticSeverity where
  | kError
  | kWarning
deriving DecidableEq, Repr

/-- LSP diagnostic: range, severity, human-readable message. -/
structure Diagnostic where
  range : TextRange
  severity : DiagnosticSeverity
  message : String
deriving DecidableEq, Repr

/-- Token class enumeration; the adapter only distinguishes
`SymbolIdentifier` from everything else. -/
inductive TokenEnum where
  | SymbolIdentifier
  | EOFToken
  | otherTok (n : Nat)
deriving DecidableEq, Repr

/-- A token of the token stream: its class and its literal text. -/
structure TokenInfo where
  tokenEnum : TokenEnum
  text : String
deriving DecidableEq, Repr

/-- Analysis phase of a rejected token (`verible::AnalysisPhase`). -/
inductive AnalysisPhase where
  | kLexPhase
  | kPreprocessPhase
  | kParsePhase
deriving DecidableEq, Repr

/-- Error severity of a rejected token (`verible::ErrorSeverity`). -/
inductive ErrorSeverity where
  | kError
  | kWarning
deriving DecidableEq, Repr

/-- Modelled from the spec: `AnalysisPhaseName` lives in the external
file-analyzer collaborator; the spec only requires the message to start with
"<phase> <severity-description>", so each phase is given a fixed name. -/
def AnalysisPhaseName (p : AnalysisPhase) : String :=
  match p with
  | AnalysisPhase.kLexPhase => "lexical"
  | AnalysisPhase.kPreprocessPhase => "preprocessing"
  | AnalysisPhase.kParsePhase => "syntax"

/-- Modelled from the spec: `ErrorSeverityDescription` lives in the external
file-analyzer collaborator. -/
def ErrorSeverityDescription (s : ErrorSeverity) : String :=
  match s with
  | ErrorSeverity.kError => "error"
  | ErrorSeverity.kWarning => "warning"

/-- One rejected token of the parser, together with the fields that the
external `ExtractLinterTokenErrorDetail` hands to its callback (phase,
severity, range, token text, detail message, EOF flag). -/
structure RejectedToken where
  phase : AnalysisPhase
  severity : ErrorSeverity
  range : TextRange
  isEOF : Bool
  tokenText : String
  msg : String
deriving DecidableEq, Repr

/-- Lint severity as declared by a rule (`verible::LintSeverity`). -/
inductive LintSeverity where
  | kError
  | kWarning
deriving DecidableEq, Repr

/-- One replacement edit of an autofix: a byte range of the original text
and its replacement string. -/
structure ReplacementEdit where
  fragmentBegin : Nat
  fragmentEnd : Nat
  replacement : String
deriving DecidableEq, Repr

/-- A candidate repair: an ordered list of replacement edits plus a
human-readable description. -/
structure AutoFix where
  description : String
  edits : List ReplacementEdit
deriving DecidableEq, Repr

/-- A single lint violation: the anchor token, the reason text, and the
candidate autofixes in preference order. -/
structure LintViolation where
  token : TokenInfo
  reason : String
  autofixes : List AutoFix
deriving DecidableEq, Repr

/-- A violation paired with its rule status (severity, doc url, rule name),
as produced (already sorted) by the external `GetSortedViolations`. -/
structure LintViolationWithStatus where
  violation : LintViolation
  severity : LintSeverity
  url : String
  lintRuleName : String
deriving DecidableEq, Repr

/-- The slice of `verible::TextStructureView` the adapter reads: the token
stream plus the position-mapper operations it calls.  The position-mapper
operations are external collaborators (line-column-map), so they appear as
function-valued fields supplied with each concrete snapshot. -/
structure TextStructureView where
  tokenStream : List TokenInfo
  findTokenAt : Position → TokenInfo
  getRangeForToken : TokenInfo → TextRange
  getLineColAtOffset : Nat → Position
  contentsEndPos : Position

/-- Convert a linter violation to an LSP diagnostic
(`ViolationToDiagnostic` in the source). -/
def ViolationToDiagnostic (v : LintViolationWithStatus)
    (text : TextStructureView) : Diagnostic :=
  let range := text.getRangeForToken v.violation.token
  let fixMsg := if v.violation.autofixes.isEmpty then "" else " (fix available)"
  let lspSeverity :=
    if v.severity = LintSeverity.kWarning then DiagnosticSeverity.kWarning
    else DiagnosticSeverity.kError
  { range := range,
    severity := lspSeverity,
    message := v.violation.reason ++ " " ++ v.url ++ "[" ++ v.lintRuleName
      ++ "]" ++ fixMsg }

/-- Build the diagnostic for one rejected token.  This is the body of the
callback passed to the external `ExtractLinterTokenErrorDetail`, which is
modelled (from the spec wording "each converted to a Diagnostic") as invoking the
callback exactly once with the fields of the token itself. -/
def rejectedTokenToDiagnostic (rt : RejectedToken) : Diagnostic :=
  let m0 := AnalysisPhaseName rt.phase ++ " " ++ ErrorSeverityDescription rt.severity
  let m1 :=
    if rt.isEOF then m0 ++ " (unexpected EOF)"
    else m0 ++ " at \"" ++ rt.tokenText ++ "\""
  let m2 := if rt.msg.isEmpty then m1 else m1 ++ " " ++ rt.msg
  { range := rt.range,
    severity :=
      if rt.severity = ErrorSeverity.kError then DiagnosticSeverity.kError
      else DiagnosticSeverity.kWarning,
    message := m2 }

/-- A document-symbol outline node (`verible::lsp::DocumentSymbol`): a name,
a symbol kind, and nested children. -/
inductive DocumentSymbol where
  | mk (name : String) (kind : Int) (children : List DocumentSymbol)

/-- Children accessor of an outline node. -/
def DocumentSymbol.children : DocumentSymbol → List DocumentSymbol
  | DocumentSymbol.mk _ _ c => c

/-- Name accessor of an outline node. -/
def DocumentSymbol.name : DocumentSymbol → String
  | DocumentSymbol.mk n _ _ => n

/-- One `kDimensionRange` node found under the packed dimensions of a port
data type: the flattened literal text of its left and right bound (as the
external `GetDimensionRangeLeftBound` / `GetDimensionRangeRightBound` plus
`ExtractExpressionText` would produce), `none` when a bound is unresolvable. -/
structure DimensionRange where
  leftBound : Option String
  rightBound : Option String
deriving DecidableEq, Repr

/-- The data-type subtree of a port declaration, reduced to the sequence of
dimension-range nodes the nested `FindAllPackedDimensions` /
`FindAllDeclarationDimensions` / child scan visits, in visit order. -/
structure DataTypeInfo where
  dimensionRanges : List DimensionRange
deriving DecidableEq, Repr

/-- One `kPortDeclaration` node, reduced to what the external CST accessors
`GetIdentifierFromPortDeclaration`, `GetDirectionFromPortDeclaration` and the
data-type subtree lookup return for it (`none` models a null accessor
result). -/
structure PortDeclSym where
  identifier : Option String
  direction : Option String
  dataType : Option DataTypeInfo
deriving DecidableEq, Repr

/-- The `kPortReference` node inside a port, reduced to what
`GetIdentifierFromPortReference` returns for it. -/
structure PortRefNode where
  identifier : Option String
deriving DecidableEq, Repr

/-- One bare port found by `FindAllPortReferences`, reduced to what
`GetPortReferenceFromPort` returns for it. -/
structure PortSym where
  reference : Option PortRefNode
deriving DecidableEq, Repr

/-- The module-header parenthesis group (`GetModulePortParenGroup`): the port
declarations and the bare port references found inside it. -/
structure ParenGroup where
  portDecls : List PortDeclSym
  portRefs : List PortSym
deriving DecidableEq, Repr

/-- One parameter/localparam declaration, reduced to what `GetParamKeyword`,
`GetParameterNameToken` (text plus the line the position mapper assigns to
it) and `GetParamAssignExpression` return for it. -/
structure ParamDeclSym where
  isLocalparam : Bool
  nameToken : Option (String × Int)
  valueExpr : Option String
deriving DecidableEq, Repr

/-- One gate instance inside a data declaration, reduced to the result of
`GetModuleInstanceNameTokenInfoFromGateInstance` (name text plus line). -/
structure GateInstSym where
  nameToken : Option (String × Int)
deriving DecidableEq, Repr

/-- One data declaration of the module body, reduced to what the external
accessors return: whether `GetInstantiationTypeOfDataDeclaration` resolves,
the flattened type-identifier text, and the gate instances of its instance
list. -/
structure DataDeclSym where
  hasInstantiationType : Bool
  typeId : Option String
  instanceList : Option (List GateInstSym)
deriving DecidableEq, Repr

/-- One module declaration found by `FindAllModuleDeclarations`, reduced to
the accessor results the adapter reads from it.  `portDeclarationList` is
`GetModulePortDeclarationList` composed with `FindAllPortDeclarations`;
`startPos` / `endPosition` are the positions the line-column map assigns to
the module name token and to the end of `StringSpanOfSymbol`. -/
structure ModuleDeclSym where
  name : Option String
  portDeclarationList : Option (List PortDeclSym)
  portParenGroup : Option ParenGroup
  startPos : Position
  endPosition : Position
  paramDecls : List ParamDeclSym
  moduleItemList : Option (List DataDeclSym)
deriving DecidableEq, Repr

/-- One parsed buffer (`ParsedBuffer` of the external lsp-parse-buffer): the
snapshot slice the adapter reads — rejected tokens, the sorted lint
violations (output of the external `GetSortedViolations`), the text
structure, the parse-success flag, the URI, the syntax tree reduced to its
module declarations (`none` when the tree is null), and the outline the
external `DocumentSymbolFiller` builds for it. -/
structure ParsedBuffer where
  rejectedTokens : List RejectedToken
  lintViolations : List LintViolationWithStatus
  text : TextStructureView
  parsedSuccessfully : Bool
  uri : String
  tree : Option (List ModuleDeclSym)
  outline : DocumentSymbol

/-- Modelled from the spec: the external `BufferTracker` hands out the
latest snapshot (`current`) and the last successfully parsed snapshot
(`last_good`); either may be absent.  A snapshot that never reached a
parseable state manifests as an absent snapshot. -/
structure BufferTracker where
  current : Option ParsedBuffer
  lastGood : Option ParsedBuffer

/-- One bounded emission loop of `CreateDiagnostics` — the translation of
`for (x : xs) { if (remaining-- <= 0) break; emit(f x); }`: returns the
emitted elements and the final value of `remaining` (note the C++
post-decrement also fires on the breaking iteration). -/
def emitLimited {α β : Type} (f : α → β) : List α → Int → List β × Int
  | [], remaining => ([], remaining)
  | x :: xs, remaining =>
    if remaining ≤ 0 then ([], remaining - 1)
    else
      let rest := emitLimited f xs (remaining - 1)
      (f x :: rest.1, rest.2)

/-- The clamped emission budget of `CreateDiagnostics`: the unclamped total
`|rejectedTokens| + |lintViolations|`, clamped to `messageLimit` when that
is non-negative and exceeded. -/
def diagnosticsBudget (current : ParsedBuffer) (messageLimit : Int) : Int :=
  let remaining0 : Int :=
    current.rejectedTokens.length + current.lintViolations.length
  if 0 ≤ messageLimit ∧ remaining0 > messageLimit then messageLimit
  else remaining0

/-- The snapshot-present body of `CreateDiagnostics`: the two bounded
emission loops sharing the running `remaining` counter. -/
def createDiagnosticsFor (current : ParsedBuffer) (messageLimit : Int) :
    List Diagnostic :=
  (emitLimited rejectedTokenToDiagnostic current.rejectedTokens
      (diagnosticsBudget current messageLimit)).1
    ++ (emitLimited (fun v => ViolationToDiagnostic v current.text)
        current.lintViolations
        (emitLimited rejectedTokenToDiagnostic current.rejectedTokens
          (diagnosticsBudget current messageLimit)).2).1

/-- `CreateDiagnostics` from the source: merge rejected tokens and lint
violations into one diagnostic list, clamped by `message_limit` when that is
non-negative. -/
def CreateDiagnostics (tracker : BufferTracker) (messageLimit : Int) :
    List Diagnostic :=
  match tracker.current with
  | none => []
  | some current => createDiagnosticsFor current messageLimit

/-- LSP text-document identifier. -/
structure TextDocId where
  uri : String
deriving DecidableEq, Repr

/-- Parameters of a pull-diagnostics request. -/
structure DocumentDiagnosticParams where
  textDocument : TextDocId
deriving DecidableEq, Repr

/-- A full pull-diagnostics report: the kind tag (default "full") and the
diagnostic items. -/
structure FullDocumentDiagnosticReport where
  kind : String
  items : List Diagnostic
deriving DecidableEq, Repr

/-- `GenerateDiagnosticReport` from the source: the pull-diagnostics entry
point; delegates to `CreateDiagnostics` with the no-limit sentinel `-1`. -/
def GenerateDiagnosticReport (tracker : Option BufferTracker)
    (p : DocumentDiagnosticParams) : FullDocumentDiagnosticReport :=
  match tracker with
  | none => { kind := "full", items := [] }
  | some t => { kind := "full", items := CreateDiagnostics t (-1) }

/-- LSP text edit: a range and its replacement text. -/
structure TextEdit where
  range : TextRange
  newText : String
deriving DecidableEq, Repr

/-- Convert the replacement edits of an autofix to LSP text edits via the
position mapper (`AutofixToTextEdits` in the source). -/
def AutofixToTextEdits (fix : AutoFix) (text : TextStructureView) :
    List TextEdit :=
  fix.edits.map fun edit =>
    { range :=
        { start := text.getLineColAtOffset edit.fragmentBegin,
          endPos := text.getLineColAtOffset edit.fragmentEnd },
      newText := edit.replacement }

/-- LSP code action: title, kind, the diagnostics it addresses, the
preferred flag, and the edit changes as a uri-to-edits map (here an
association list with the single document being inspected). -/
structure CodeAction where
  title : String
  kind : String
  diagnostics : List Diagnostic
  isPreferred : Bool
  changes : List (String × List TextEdit)
deriving DecidableEq, Repr

/-- Parameters of a code-action request: the document and the caller
range of interest. -/
structure CodeActionParams where
  textDocument : TextDocId
  range : TextRange
deriving DecidableEq, Repr

/-- Lexicographic order on LSP positions (`operator<` of the protocol
operators header). -/
def Position.lessThan (a b : Position) : Bool :=
  a.line < b.line || (a.line == b.line && a.character < b.character)

/-- Modelled from the spec: `rangeOverlap` lives in the external
lsp-protocol-operators header; the spec requires a test of whether the
diagnostic range intersects the caller range, so two ranges overlap
unless one ends strictly before the other starts. -/
def rangeOverlap (a b : TextRange) : Bool :=
  !(Position.lessThan a.endPos b.start || Position.lessThan b.endPos a.start)

/-- The inner autofix loop of `GenerateLinterCodeActions`: one CodeAction
per autofix, the `preferred` flag carried in and cleared after the first
emission. -/
def fixesToCodeActions (diag : Diagnostic) (uri : String)
    (text : TextStructureView) :
    Bool → List AutoFix → List CodeAction
  | _, [] => []
  | preferred, fix :: rest =>
    { title := fix.description,
      kind := "quickfix",
      diagnostics := [diag],
      isPreferred := preferred,
      changes := [(uri, AutofixToTextEdits fix text)] }
      :: fixesToCodeActions diag uri text false rest

/-- Per-violation body of the outer loop of `GenerateLinterCodeActions`:
skip violations with no autofix, skip violations whose diagnostic range
does not overlap the caller range, otherwise emit the autofix actions. -/
def violationCodeActions (p : CodeActionParams) (text : TextStructureView)
    (v : LintViolationWithStatus) : List CodeAction :=
  if v.violation.autofixes.isEmpty then []
  else
    let diagnostic := ViolationToDiagnostic v text
    if rangeOverlap diagnostic.range p.range then
      fixesToCodeActions diagnostic p.textDocument.uri text true
        v.violation.autofixes
    else []

/-- `GenerateLinterCodeActions` from the source: quick-fix actions for all
lint violations whose diagnostic overlaps the caller range. -/
def GenerateLinterCodeActions (tracker : Option BufferTracker)
    (p : CodeActionParams) : List CodeAction :=
  match tracker with
  | none => []
  | some t =>
    match t.current with
    | none => []
    | some current =>
      let lintViolations := current.lintViolations
      if lintViolations.isEmpty then []
      else
        lintViolations.foldl
          (fun acc v => acc ++ violationCodeActions p current.text v) []

/-- Parameters of a formatting request: an optional line/character range. -/
structure DocumentFormattingParams where
  hasRange : Bool
  range : TextRange
deriving DecidableEq, Repr

/-- The formatter interval of one-based lines (`verible::Interval<int>`). -/
structure FormatInterval where
  min : Int
  max : Int
deriving DecidableEq, Repr

/-- Modelled from the spec: `Interval::valid()` lives in the external
interval header; the format-range behavior of the spec rejects when "the
resulting range is not a valid non-empty interval", so the guard accepts
exactly the ordered non-empty intervals. -/
def FormatInterval.valid (i : FormatInterval) : Bool :=
  decide (i.min < i.max)

/-- The zero-based-to-one-based line-interval conversion of `FormatRange`:
`last_line_include` extends the end line by one exactly when the caller
end-of-range column is nonzero. -/
def formatLinesOf (p : DocumentFormattingParams) : FormatInterval :=
  let lastLineInclude : Int := if p.range.endPos.character > 0 then 1 else 0
  { min := p.range.start.line + 1,
    max := p.range.endPos.line + 1 + lastLineInclude }

/-- The ranged-mode body of `FormatRange`, after the interval conversion. -/
def formatRangedEdits (fmtRange : FormatInterval → Option String)
    (p : DocumentFormattingParams) : List TextEdit :=
  if !(formatLinesOf p).valid then []
  else
    match fmtRange (formatLinesOf p) with
    | none => []
    | some formattedRange =>
      [{ range :=
           { start := { line := (formatLinesOf p).min - 1, character := 0 },
             endPos := { line := (formatLinesOf p).max - 1, character := 0 } },
         newText := formattedRange }]

/-- `FormatRange` from the source.  The external formatter collaborator is
passed in as two oracles: `fmtRange` for `FormatVerilogRange` on a
one-based line interval and `fmtFull` for `FormatVerilog` on the whole
document (`none` models a non-ok status). -/
def FormatRange (fmtRange : FormatInterval → Option String)
    (fmtFull : Option String) (tracker : Option BufferTracker)
    (p : DocumentFormattingParams) : List TextEdit :=
  match tracker with
  | none => []
  | some t =>
    match t.current with
    | none => []
    | some current =>
      if !current.parsedSuccessfully then []
      else if p.hasRange then formatRangedEdits fmtRange p
      else
        match fmtFull with
        | none => []
        | some newText =>
          [{ range :=
               { start := { line := 0, character := 0 },
                 endPos := current.text.contentsEndPos },
             newText := newText }]

/-- Parameters of a document-symbol request. -/
structure DocumentSymbolParams where
  textDocument : TextDocId
deriving DecidableEq, Repr

/-- `CreateDocumentSymbolOutline` from the source: build the outline for
the last successfully parsed snapshot (the external `DocumentSymbolFiller`
result is the `outline` field of the snapshot) and return only the children of
the synthetic top-level file node. -/
def CreateDocumentSymbolOutline (tracker : Option BufferTracker)
    (p : DocumentSymbolParams) : List DocumentSymbol :=
  match tracker with
  | none => []
  | some t =>
    match t.lastGood with
    | none => []
    | some lastGood => lastGood.outline.children

/-- An LSP document highlight: just a range. -/
structure DocumentHighlight where
  range : TextRange
deriving DecidableEq, Repr

/-- Parameters of a document-highlight request: the cursor position. -/
structure DocumentHighlightParams where
  position : Position
deriving DecidableEq, Repr

/-- `CreateHighlightRanges` from the source: if the token under the cursor
is a `SymbolIdentifier`, the ranges of every stream token with the same
token class and the same literal text; otherwise nothing. -/
def CreateHighlightRanges (tracker : Option BufferTracker)
    (p : DocumentHighlightParams) : List DocumentHighlight :=
  match tracker with
  | none => []
  | some t =>
    match t.current with
    | none => []
    | some current =>
      let text := current.text
      let cursorToken :=
        text.findTokenAt { line := p.position.line,
                           character := p.position.character }
      if cursorToken.tokenEnum ≠ TokenEnum.SymbolIdentifier then []
      else
        (text.tokenStream.filter fun tok =>
            tok.tokenEnum == cursorToken.tokenEnum
              && tok.text == cursorToken.text).map
          fun tok => { range := text.getRangeForToken tok }

/-- One port of the module-ports JSON answer. -/
structure PortJson where
  name : String
  direction : String
  width : String
deriving DecidableEq, Repr

/-- Render the first fully resolvable dimension range as "[high:low]",
falling back to "1" — the inner scan of
`GetPackedDimensionsFromPortDeclaration`. -/
def firstDimensionRangeText : List DimensionRange → String
  | [] => "1"
  | d :: rest =>
    match d.leftBound, d.rightBound with
    | some l, some r => "[" ++ l ++ ":" ++ r ++ "]"
    | _, _ => firstDimensionRangeText rest

/-- `GetPackedDimensionsFromPortDeclaration` from the source: "1" when the
data type or its packed dimensions are absent, else the first dimension
range with both bounds, rendered textually. -/
def GetPackedDimensionsFromPortDeclaration (pd : PortDeclSym) : String :=
  match pd.dataType with
  | none => "1"
  | some dt => firstDimensionRangeText dt.dimensionRanges

/-- The shared per-port-declaration body of `GetModulePorts` and
`GetModuleInfo`: skip the declaration when its identifier is unresolvable,
default the direction to "input" when absent. -/
def portDeclToJson (pd : PortDeclSym) : Option PortJson :=
  match pd.identifier with
  | none => none
  | some nm =>
    some { name := nm,
           direction := Option.getD pd.direction "input",
           width := GetPackedDimensionsFromPortDeclaration pd }

/-- The tier-c body of `GetModulePorts`: a bare port reference becomes a
port with direction "unknown" and width "1"; unresolvable nodes are
skipped. -/
def portRefToJson (ps : PortSym) : Option PortJson :=
  match ps.reference with
  | none => none
  | some ref =>
    match ref.identifier with
    | none => none
    | some nm => some { name := nm, direction := "unknown", width := "1" }

/-- One module of the `GetModulePorts` answer. -/
structure ModulePortsJson where
  name : String
  ports : List PortJson
deriving DecidableEq, Repr

/-- The per-module body of `GetModulePorts`: resolve the name (skipping the
module when unresolvable), then the three-tier port fallback — explicit
port-declaration list, then paren-group declarations when that produced
nothing, then bare port references when that still produced nothing. -/
def modulePortsOf (m : ModuleDeclSym) : Option ModulePortsJson :=
  match m.name with
  | none => none
  | some nm =>
    let ports1 :=
      match m.portDeclarationList with
      | none => []
      | some decls => decls.filterMap portDeclToJson
    let ports2 :=
      match m.portParenGroup with
      | none => ports1
      | some pg =>
        if ports1.isEmpty then
          let fromDecls := pg.portDecls.filterMap portDeclToJson
          if fromDecls.isEmpty then pg.portRefs.filterMap portRefToJson
          else fromDecls
        else ports1
    some { name := nm, ports := ports2 }

/-- `GetModulePorts` from the source. -/
def GetModulePorts (tracker : Option BufferTracker) (uri : String) :
    List ModulePortsJson :=
  match tracker with
  | none => []
  | some t =>
    match t.lastGood with
    | none => []
    | some lastGood =>
      match lastGood.tree with
      | none => []
      | some modules => modules.filterMap modulePortsOf

/-- One parameter of the `GetModuleInfo` answer. -/
structure ParamJson where
  type : String
  name : String
  value : String
  line : Int
deriving DecidableEq, Repr

/-- One instantiation of the `GetModuleInfo` answer. -/
structure InstJson where
  moduleName : String
  instanceName : String
  line : Int
deriving DecidableEq, Repr

/-- One module of the `GetModuleInfo` answer. -/
structure ModuleInfoJson where
  name : String
  range : TextRange
  ports : List PortJson
  parameters : List ParamJson
  instantiations : List InstJson
deriving DecidableEq, Repr

/-- The per-parameter body of `GetModuleInfo`: tag by keyword, skip when the
name token is unresolvable, record the initializer text ("" when absent)
and the declaration line. -/
def paramToJson (pd : ParamDeclSym) : Option ParamJson :=
  let ty := if pd.isLocalparam then "localparam" else "parameter"
  match pd.nameToken with
  | none => none
  | some nt =>
    some { type := ty, name := nt.1, value := Option.getD pd.valueExpr "",
           line := nt.2 }

/-- The per-data-declaration body of the instantiation scan of `GetModuleInfo`:
skip unresolvable or built-in-typed declarations, then one entry per gate
instance, with empty name and line 0 when the instance name token is
unresolvable. -/
def dataDeclInsts (dd : DataDeclSym) : List InstJson :=
  if !dd.hasInstantiationType then []
  else
    match dd.typeId with
    | none => []
    | some tname =>
      if tname = "reg" ∨ tname = "wire" ∨ tname = "logic"
          ∨ tname = "integer" ∨ tname = "real" ∨ tname = "time" then []
      else
        match dd.instanceList with
        | none => []
        | some gis =>
          gis.map fun gi =>
            match gi.nameToken with
            | some nt => { moduleName := tname, instanceName := nt.1,
                           line := nt.2 }
            | none => { moduleName := tname, instanceName := "", line := 0 }

/-- The per-module body of `GetModuleInfo`: name, source range, ports
(two tiers only — no bare-port-reference fallback), parameters and
instantiations. -/
def moduleInfoOf (m : ModuleDeclSym) : Option ModuleInfoJson :=
  match m.name with
  | none => none
  | some nm =>
    let ports1 :=
      match m.portDeclarationList with
      | none => []
      | some decls => decls.filterMap portDeclToJson
    let ports2 :=
      match m.portParenGroup with
      | none => ports1
      | some pg =>
        if ports1.isEmpty then pg.portDecls.filterMap portDeclToJson
        else ports1
    some { name := nm,
           range := { start := m.startPos, endPos := m.endPosition },
           ports := ports2,
           parameters := m.paramDecls.filterMap paramToJson,
           instantiations :=
             match m.moduleItemList with
             | none => []
             | some dds => dds.flatMap dataDeclInsts }

/-- `GetModuleInfo` from the source. -/
def GetModuleInfo (tracker : Option BufferTracker) (uri : String) :
    List ModuleInfoJson :=
  match tracker with
  | none => []
  | some t =>
    match t.lastGood with
    | none => []
    | some lastGood =>
      match lastGood.tree with
      | none => []
      | some modules => modules.filterMap moduleInfoOf

/-- A concrete range used by the sample snapshot below. -/
def sampleRange : TextRange :=
  { start := { line := 0, character := 0 },
    endPos := { line := 0, character := 3 } }

/-- A concrete identifier token. -/
def sampleIdentToken : TokenInfo :=
  { tokenEnum := TokenEnum.SymbolIdentifier, text := "foo" }

/-- A concrete non-identifier token. -/
def sampleKeywordToken : TokenInfo :=
  { tokenEnum := TokenEnum.otherTok 5, text := "module" }

/-- A concrete text structure: three tokens, constant position-mapper
oracles, the cursor resolving to the identifier token. -/
def sampleText : TextStructureView :=
  { tokenStream := [sampleIdentToken, sampleKeywordToken, sampleIdentToken],
    findTokenAt := fun _ => sampleIdentToken,
    getRangeForToken := fun _ => sampleRange,
    getLineColAtOffset := fun n => { line := 0, character := (n : Int) },
    contentsEndPos := { line := 3, character := 0 } }

/-- A concrete rejected token (parse-phase error). -/
def sampleRejectedToken : RejectedToken :=
  { phase := AnalysisPhase.kParsePhase, severity := ErrorSeverity.kError,
    range := sampleRange, isEOF := false, tokenText := "endmodule",
    msg := "" }

/-- A concrete autofix with one replacement edit. -/
def sampleFix1 : AutoFix :=
  { description := "remove trailing spaces",
    edits := [{ fragmentBegin := 4, fragmentEnd := 6, replacement := "" }] }

/-- A second concrete autofix. -/
def sampleFix2 : AutoFix :=
  { description := "collapse line",
    edits := [{ fragmentBegin := 0, fragmentEnd := 6, replacement := "x" }] }

/-- A concrete lint violation carrying two autofixes. -/
def sampleViolation : LintViolationWithStatus :=
  { violation := { token := sampleIdentToken,
                   reason := "trailing whitespace",
                   autofixes := [sampleFix1, sampleFix2] },
    severity := LintSeverity.kWarning,
    url := "https://example.org/rule",
    lintRuleName := "no-trailing-spaces" }

/-- A concrete outline: the synthetic file node wrapping one module node. -/
def sampleOutline : DocumentSymbol :=
  DocumentSymbol.mk "sample.sv" 1 [DocumentSymbol.mk "adder" 2 []]

/-- A concrete successfully parsed snapshot with one rejected token and one
lint violation. -/
def sampleBuf : ParsedBuffer :=
  { rejectedTokens := [sampleRejectedToken],
    lintViolations := [sampleViolation],
    text := sampleText,
    parsedSuccessfully := true,
    uri := "file:///sample.sv",
    tree := some [],
    outline := sampleOutline }

/-- A tracker whose current and last-good snapshots are the sample one. -/
def sampleTracker : BufferTracker :=
  { current := some sampleBuf, lastGood := some sampleBuf }

/-- A tracker with no snapshot at all. -/
def emptyTracker : BufferTracker := { current := none, lastGood := none }

/-- Concrete pull-diagnostics parameters. -/
def sampleParams : DocumentDiagnosticParams :=
  { textDocument := { uri := "file:///sample.sv" } }

/-- Concrete code-action parameters whose range overlaps `sampleRange`. -/
def sampleCodeActionParams : CodeActionParams :=
  { textDocument := { uri := "file:///sample.sv" },
    range := { start := { line := 0, character := 0 },
               endPos := { line := 0, character := 1 } } }

/-- Concrete formatting parameters: lines 0..1, end column nonzero. -/
def sampleFormattingParams : DocumentFormattingParams :=
  { hasRange := true,
    range := { start := { line := 0, character := 0 },
               endPos := { line := 1, character := 2 } } }

/-- A concrete formatter oracle that always succeeds. -/
def sampleFormatter (i : FormatInterval) : Option String :=
  some "formatted\n"

/-- Concrete document-symbol parameters. -/
def sampleDocSymbolParams : DocumentSymbolParams :=
  { textDocument := { uri := "file:///sample.sv" } }

/-- Concrete document-highlight parameters. -/
def sampleHighlightParams : DocumentHighlightParams :=
  { position := { line := 0, character := 1 } }

/-- Modelled from the spec: one ANSI port declaration of the adder example,
`input [3:0] a`, as the external CST accessors resolve it. -/
def adderPortA : PortDeclSym :=
  { identifier := some "a", direction := some "input",
    dataType := some { dimensionRanges :=
      [{ leftBound := some "3", rightBound := some "0" }] } }

/-- Modelled from the spec: the ANSI port declaration `input [3:0] b`. -/
def adderPortB : PortDeclSym :=
  { identifier := some "b", direction := some "input",
    dataType := some { dimensionRanges :=
      [{ leftBound := some "3", rightBound := some "0" }] } }

/-- Modelled from the spec: the ANSI port declaration `output [4:0] sum`. -/
def adderPortSum : PortDeclSym :=
  { identifier := some "sum", direction := some "output",
    dataType := some { dimensionRanges :=
      [{ leftBound := some "4", rightBound := some "0" }] } }

/-- Modelled from the spec: the module declaration the external parser yields for
"module adder(input [3:0] a, input [3:0] b, output [4:0] sum); endmodule" —
an ANSI-style header whose explicit port-declaration list carries the three
directed, packed-dimensioned port declarations. -/
def adderModule : ModuleDeclSym :=
  { name := some "adder",
    portDeclarationList := some [adderPortA, adderPortB, adderPortSum],
    portParenGroup := some { portDecls := [adderPortA, adderPortB, adderPortSum],
                             portRefs := [] },
    startPos := { line := 0, character := 7 },
    endPosition := { line := 0, character := 75 },
    paramDecls := [],
    moduleItemList := some [] }

/-- The snapshot whose syntax tree holds exactly the adder module. -/
def adderBuf : ParsedBuffer :=
  { rejectedTokens := [],
    lintViolations := [],
    text := sampleText,
    parsedSuccessfully := true,
    uri := "file:///adder.sv",
    tree := some [adderModule],
    outline := sampleOutline }

/-- A tracker holding the adder snapshot. -/
def adderTracker : BufferTracker :=
  { current := some adderBuf, lastGood := some adderBuf }

/-- Modelled from the spec: the module declaration the external parser yields for a
non-ANSI header "module m(a, b); ... endmodule" — the header parenthesis
group holds only bare port references, and no port declaration exists in
the header (the port-declaration searches find nothing). -/
def nonAnsiModule : ModuleDeclSym :=
  { name := some "m",
    portDeclarationList := some [],
    portParenGroup := some
      { portDecls := [],
        portRefs := [{ reference := some { identifier := some "a" } },
                     { reference := some { identifier := some "b" } }] },
    startPos := { line := 0, character := 7 },
    endPosition := { line := 2, character := 9 },
    paramDecls := [],
    moduleItemList := some [] }

/-- The snapshot whose syntax tree holds exactly the non-ANSI module. -/
def nonAnsiBuf : ParsedBuffer :=
  { rejectedTokens := [],
    lintViolations := [],
    text := sampleText,
    parsedSuccessfully := true,
    uri := "file:///non_ansi.sv",
    tree := some [nonAnsiModule],
    outline := sampleOutline }

/-- A tracker holding the non-ANSI snapshot. -/
def nonAnsiTracker : BufferTracker :=
  { current := some nonAnsiBuf, lastGood := some nonAnsiBuf }

theorem emitLimited_fst {α β : Type} (f : α → β) (xs : List α) (r : Int) :
    (emitLimited f xs r).1 = (xs.take r.toNat).map f := by
  induction xs generalizing r with
  | nil => simp [emitLimited]
  | cons x xs ih =>
    by_cases h : r ≤ 0
    · have h0 : r.toNat = 0 := by omega
      simp [emitLimited, h, h0]
    · have h1 : r.toNat = (r - 1).toNat + 1 := by omega
      rw [h1]
      simp only [emitLimited, if_neg h, List.take_succ_cons, List.map_cons]
      rw [ih]

theorem emitLimited_snd_of_le {α β : Type} (f : α → β) (xs : List α)
    (r : Int) (h : (xs.length : Int) ≤ r) :
    (emitLimited f xs r).2 = r - xs.length := by
  induction xs generalizing r with
  | nil => simp [emitLimited]
  | cons x xs ih =>
    have hlen : ((x :: xs).length : Int) = (xs.length : Int) + 1 := by
      simp
    have h0 : ¬ r ≤ 0 := by omega
    have h2 : (xs.length : Int) ≤ r - 1 := by omega
    simp only [emitLimited, if_neg h0]
    rw [ih (r - 1) h2, hlen]
    ring

theorem emitLimited_snd_nonpos {α β : Type} (f : α → β) (xs : List α)
    (r : Int) (h : r < (xs.length : Int)) : (emitLimited f xs r).2 ≤ 0 := by
  induction xs generalizing r with
  | nil =>
    simp only [List.length_nil, Nat.cast_zero] at h
    simp only [emitLimited]
    omega
  | cons x xs ih =>
    by_cases h0 : r ≤ 0
    · simp only [emitLimited, if_pos h0]
      omega
    · have hlen : ((x :: xs).length : Int) = (xs.length : Int) + 1 := by
        simp
      have h2 : r - 1 < (xs.length : Int) := by omega
      simp only [emitLimited, if_neg h0]
      exact ih (r - 1) h2

theorem emitLimited_length {α β : Type} (f : α → β) (xs : List α) (r : Int) :
    ((emitLimited f xs r).1).length = min r.toNat xs.length := by
  rw [emitLimited_fst, List.length_map, List.length_take]

theorem emitLimited_pair_length {α β γ : Type} (f : α → β) (g : γ → β)
    (xs : List α) (ys : List γ) (r : Int) :
    ((emitLimited f xs r).1).length
      + ((emitLimited g ys (emitLimited f xs r).2).1).length
      = min r.toNat (xs.length + ys.length) := by
  by_cases h : (xs.length : Int) ≤ r
  · rw [emitLimited_length, emitLimited_snd_of_le f xs r h, emitLimited_length]
    omega
  · have h2 := emitLimited_snd_nonpos f xs r (by omega)
    rw [emitLimited_length, emitLimited_length]
    omega

theorem CreateDiagnostics_some (t : BufferTracker) (buf : ParsedBuffer)
    (limit : Int) (h : t.current = some buf) :
    CreateDiagnostics t limit = createDiagnosticsFor buf limit := by
  unfold CreateDiagnostics
  rw [h]

theorem CreateDiagnostics_length (t : BufferTracker) (buf : ParsedBuffer)
    (h : t.current = some buf) (limit : Int) :
    (CreateDiagnostics t limit).length
      = min (diagnosticsBudget buf limit).toNat
          (buf.rejectedTokens.length + buf.lintViolations.length) := by
  rw [CreateDiagnostics_some t buf limit h]
  unfold createDiagnosticsFor
  rw [List.length_append]
  exact emitLimited_pair_length _ _ _ _ _

/-- C1: for every snapshot, a non-negative message limit bounds the number
of diagnostics `CreateDiagnostics` returns; with the unlimited sentinel
(negative limit) exactly `|syntaxErrors| + |lintViolations|` diagnostics are
returned; and the count never exceeds that unclamped total. -/
theorem CreateDiagnostics_respects_limit (t : BufferTracker)
    (buf : ParsedBuffer) (limit : Int) (h : t.current = some buf) :
    (0 ≤ limit → ((CreateDiagnostics t limit).length : Int) ≤ limit)
    ∧ (limit < 0 → (CreateDiagnostics t limit).length
        = buf.rejectedTokens.length + buf.lintViolations.length)
    ∧ (CreateDiagnostics t limit).length
        ≤ buf.rejectedTokens.length + buf.lintViolations.length := by
  have hl := CreateDiagnostics_length t buf h limit
  simp only [diagnosticsBudget] at hl
  by_cases hc : 0 ≤ limit ∧
      ((buf.rejectedTokens.length : Int) + buf.lintViolations.length) > limit
  · rw [if_pos hc] at hl
    exact ⟨fun _ => by omega, fun hneg => by omega, by omega⟩
  · rw [if_neg hc] at hl
    exact ⟨fun hpos => by omega, fun hneg => by omega, by omega⟩

/-- Closed witness for C1 at a concrete snapshot. -/
theorem CreateDiagnostics_respects_limit_witness :
    (0 ≤ (1 : Int) →
      ((CreateDiagnostics sampleTracker 1).length : Int) ≤ 1)
    ∧ ((1 : Int) < 0 → (CreateDiagnostics sampleTracker 1).length
        = sampleBuf.rejectedTokens.length + sampleBuf.lintViolations.length)
    ∧ (CreateDiagnostics sampleTracker 1).length
        ≤ sampleBuf.rejectedTokens.length + sampleBuf.lintViolations.length :=
  CreateDiagnostics_respects_limit sampleTracker sampleBuf 1 rfl

/-- C2: in every list `CreateDiagnostics` returns, all diagnostics derived
from rejected tokens (syntax errors) precede all diagnostics derived from
lint violations: the result is a prefix of the converted syntax errors
followed by a prefix of the converted lint violations. -/
theorem CreateDiagnostics_errors_first (t : BufferTracker)
    (buf : ParsedBuffer) (limit : Int) (h : t.current = some buf) :
    ∃ ks kv, CreateDiagnostics t limit
      = (buf.rejectedTokens.take ks).map rejectedTokenToDiagnostic
        ++ (buf.lintViolations.take kv).map
            (fun v => ViolationToDiagnostic v buf.text) := by
  rw [CreateDiagnostics_some t buf limit h]
  unfold createDiagnosticsFor
  exact ⟨_, _, by rw [emitLimited_fst, emitLimited_fst]⟩

/-- Closed witness for C2 at a concrete snapshot. -/
theorem CreateDiagnostics_errors_first_witness :
    ∃ ks kv, CreateDiagnostics sampleTracker 1
      = (sampleBuf.rejectedTokens.take ks).map rejectedTokenToDiagnostic
        ++ (sampleBuf.lintViolations.take kv).map
            (fun v => ViolationToDiagnostic v sampleBuf.text) :=
  CreateDiagnostics_errors_first sampleTracker sampleBuf 1 rfl

/-- C8: with no snapshot (the tracker `current()` pointer is null — which is also
how a buffer that never reached a parseable state manifests in the external
tracker), `CreateDiagnostics` returns the empty list rather than an
error. -/
theorem CreateDiagnostics_no_snapshot (t : BufferTracker) (limit : Int)
    (h : t.current = none) : CreateDiagnostics t limit = [] := by
  unfold CreateDiagnostics
  rw [h]

/-- Closed witness for C8 at a concrete empty tracker. -/
theorem CreateDiagnostics_no_snapshot_witness :
    CreateDiagnostics emptyTracker 5 = [] :=
  CreateDiagnostics_no_snapshot emptyTracker 5 rfl

/-- C9: the pull-diagnostics entry point always produces the complete list:
its items are `CreateDiagnostics` at the no-limit sentinel `-1`, which is
every converted syntax error followed by every converted lint violation,
regardless of any client-side limit. -/
theorem GenerateDiagnosticReport_complete (t : BufferTracker)
    (buf : ParsedBuffer) (p : DocumentDiagnosticParams)
    (h : t.current = some buf) :
    (GenerateDiagnosticReport (some t) p).items = CreateDiagnostics t (-1)
    ∧ (GenerateDiagnosticReport (some t) p).items
        = buf.rejectedTokens.map rejectedTokenToDiagnostic
          ++ buf.lintViolations.map
              (fun v => ViolationToDiagnostic v buf.text) := by
  refine ⟨rfl, ?_⟩
  show CreateDiagnostics t (-1) = _
  rw [CreateDiagnostics_some t buf (-1) h]
  unfold createDiagnosticsFor
  have hbudget : diagnosticsBudget buf (-1)
      = (buf.rejectedTokens.length : Int) + buf.lintViolations.length := by
    simp only [diagnosticsBudget]
    rw [if_neg (by omega)]
  rw [hbudget]
  have hle : (buf.rejectedTokens.length : Int)
      ≤ (buf.rejectedTokens.length : Int) + buf.lintViolations.length := by
    omega
  have hsnd := emitLimited_snd_of_le rejectedTokenToDiagnostic
    buf.rejectedTokens
    ((buf.rejectedTokens.length : Int) + buf.lintViolations.length) hle
  rw [emitLimited_fst, hsnd, emitLimited_fst]
  have h1 : ((buf.rejectedTokens.length : Int)
      + buf.lintViolations.length).toNat
      = buf.rejectedTokens.length + buf.lintViolations.length := by
    omega
  have h2 : ((buf.rejectedTokens.length : Int) + buf.lintViolations.length
      - buf.rejectedTokens.length).toNat = buf.lintViolations.length := by
    omega
  rw [h1, h2, List.take_of_length_le (by omega),
    List.take_of_length_le (by omega)]

/-- Closed witness for C9 at a concrete snapshot. -/
theorem GenerateDiagnosticReport_complete_witness :
    (GenerateDiagnosticReport (some sampleTracker) sampleParams).items
      = CreateDiagnostics sampleTracker (-1)
    ∧ (GenerateDiagnosticReport (some sampleTracker) sampleParams).items
        = sampleBuf.rejectedTokens.map rejectedTokenToDiagnostic
          ++ sampleBuf.lintViolations.map
              (fun v => ViolationToDiagnostic v sampleBuf.text) :=
  GenerateDiagnosticReport_complete sampleTracker sampleBuf sampleParams rfl

theorem foldl_append_eq_acc_flatMap {α β : Type} (f : α → List β)
    (l : List α) (acc : List β) :
    l.foldl (fun a v => a ++ f v) acc = acc ++ l.flatMap f := by
  induction l generalizing acc with
  | nil => simp
  | cons x xs ih =>
    simp only [List.foldl_cons, List.flatMap_cons, ih, List.append_assoc]

theorem GenerateLinterCodeActions_some (t : BufferTracker)
    (buf : ParsedBuffer) (p : CodeActionParams) (h : t.current = some buf) :
    GenerateLinterCodeActions (some t) p
      = buf.lintViolations.flatMap (violationCodeActions p buf.text) := by
  simp only [GenerateLinterCodeActions, h]
  by_cases he : buf.lintViolations.isEmpty
  · rw [if_pos he]
    rw [List.isEmpty_iff] at he
    rw [he]
    rfl
  · rw [if_neg he, foldl_append_eq_acc_flatMap, List.nil_append]

theorem fixesToCodeActions_length (diag : Diagnostic) (uri : String)
    (text : TextStructureView) (b : Bool) (fixes : List AutoFix) :
    (fixesToCodeActions diag uri text b fixes).length = fixes.length := by
  induction fixes generalizing b with
  | nil => rfl
  | cons f fs ih =>
    simp only [fixesToCodeActions, List.length_cons, ih]

theorem fixesToCodeActions_map_isPreferred_false (diag : Diagnostic)
    (uri : String) (text : TextStructureView) (fixes : List AutoFix) :
    (fixesToCodeActions diag uri text false fixes).map CodeAction.isPreferred
      = List.replicate fixes.length false := by
  induction fixes with
  | nil => rfl
  | cons f fs ih =>
    simp only [fixesToCodeActions, List.map_cons, ih, List.length_cons,
      List.replicate_succ]

theorem fixesToCodeActions_map_title (diag : Diagnostic) (uri : String)
    (text : TextStructureView) (b : Bool) (fixes : List AutoFix) :
    (fixesToCodeActions diag uri text b fixes).map CodeAction.title
      = fixes.map AutoFix.description := by
  induction fixes generalizing b with
  | nil => rfl
  | cons f fs ih =>
    simp only [fixesToCodeActions, List.map_cons, ih]

/-- C3: the result of `GenerateLinterCodeActions` is the concatenation of
the per-violation contributions in violation order; a violation with at
least one autofix contributes nothing when its diagnostic range does not
overlap the caller range, and otherwise exactly one CodeAction per
autofix, in autofix order, with `isPreferred` true on the first action
only. -/
theorem GenerateLinterCodeActions_per_violation (t : BufferTracker)
    (buf : ParsedBuffer) (p : CodeActionParams) (v : LintViolationWithStatus)
    (h : t.current = some buf) (hv : v ∈ buf.lintViolations)
    (hfix : v.violation.autofixes ≠ []) :
    GenerateLinterCodeActions (some t) p
      = buf.lintViolations.flatMap (violationCodeActions p buf.text)
    ∧ (rangeOverlap (ViolationToDiagnostic v buf.text).range p.range = false →
        violationCodeActions p buf.text v = [])
    ∧ (rangeOverlap (ViolationToDiagnostic v buf.text).range p.range = true →
        (violationCodeActions p buf.text v).length
            = v.violation.autofixes.length
        ∧ (violationCodeActions p buf.text v).map CodeAction.isPreferred
            = true :: List.replicate (v.violation.autofixes.length - 1) false
        ∧ (violationCodeActions p buf.text v).map CodeAction.title
            = v.violation.autofixes.map AutoFix.description) := by
  have hne : v.violation.autofixes.isEmpty = false := by
    cases hE : v.violation.autofixes.isEmpty
    · rfl
    · exact absurd (List.isEmpty_iff.mp hE) hfix
  refine ⟨GenerateLinterCodeActions_some t buf p h, ?_, ?_⟩
  · intro hov
    simp [violationCodeActions, hne, hov]
  · intro hov
    have hred : violationCodeActions p buf.text v
        = fixesToCodeActions (ViolationToDiagnostic v buf.text)
            p.textDocument.uri buf.text true v.violation.autofixes := by
      simp [violationCodeActions, hne, hov]
    obtain ⟨f0, fs, hf⟩ := List.exists_cons_of_ne_nil hfix
    refine ⟨by rw [hred, fixesToCodeActions_length], ?_,
      by rw [hred, fixesToCodeActions_map_title]⟩
    rw [hred, hf]
    simp only [fixesToCodeActions, List.map_cons,
      fixesToCodeActions_map_isPreferred_false, List.length_cons,
      Nat.add_sub_cancel]

/-- Closed witness for C3 at a concrete snapshot: one violation with two
autofixes whose diagnostic overlaps the query range. -/
theorem GenerateLinterCodeActions_per_violation_witness :
    GenerateLinterCodeActions (some sampleTracker) sampleCodeActionParams
      = sampleBuf.lintViolations.flatMap
          (violationCodeActions sampleCodeActionParams sampleBuf.text)
    ∧ (rangeOverlap
          (ViolationToDiagnostic sampleViolation sampleBuf.text).range
          sampleCodeActionParams.range = false →
        violationCodeActions sampleCodeActionParams sampleBuf.text
          sampleViolation = [])
    ∧ (rangeOverlap
          (ViolationToDiagnostic sampleViolation sampleBuf.text).range
          sampleCodeActionParams.range = true →
        (violationCodeActions sampleCodeActionParams sampleBuf.text
            sampleViolation).length
            = sampleViolation.violation.autofixes.length
        ∧ (violationCodeActions sampleCodeActionParams sampleBuf.text
              sampleViolation).map CodeAction.isPreferred
            = true :: List.replicate
                (sampleViolation.violation.autofixes.length - 1) false
        ∧ (violationCodeActions sampleCodeActionParams sampleBuf.text
              sampleViolation).map CodeAction.title
            = sampleViolation.violation.autofixes.map AutoFix.description) :=
  GenerateLinterCodeActions_per_violation sampleTracker sampleBuf
    sampleCodeActionParams sampleViolation rfl (List.mem_cons_self _ _)
    (List.cons_ne_nil _ _)

/-- C4: `FormatRange` returns no edits when the latest parse attempt did
not succeed; in ranged mode the caller zero-based line range becomes a
one-based interval whose end line is extended by one exactly when the
caller end-of-range column is nonzero; no edits are returned when that
interval is not a valid non-empty interval, and otherwise (the formatter
succeeding) a single TextEdit replaces exactly that line span. -/
theorem FormatRange_spec (fmtRange : FormatInterval → Option String)
    (fmtFull : Option String) (t : BufferTracker) (buf : ParsedBuffer)
    (p : DocumentFormattingParams) (h : t.current = some buf) :
    (buf.parsedSuccessfully = false →
        FormatRange fmtRange fmtFull (some t) p = [])
    ∧ (formatLinesOf p).min = p.range.start.line + 1
    ∧ (p.range.endPos.character > 0 →
        (formatLinesOf p).max = p.range.endPos.line + 2)
    ∧ (¬ p.range.endPos.character > 0 →
        (formatLinesOf p).max = p.range.endPos.line + 1)
    ∧ (buf.parsedSuccessfully = true → p.hasRange = true →
        ((formatLinesOf p).valid = false →
            FormatRange fmtRange fmtFull (some t) p = [])
        ∧ (∀ s : String, (formatLinesOf p).valid = true →
            fmtRange (formatLinesOf p) = some s →
            FormatRange fmtRange fmtFull (some t) p
              = [{ range :=
                     { start := { line := (formatLinesOf p).min - 1,
                                  character := 0 },
                       endPos := { line := (formatLinesOf p).max - 1,
                                   character := 0 } },
                   newText := s }])) := by
  refine ⟨?_, ?_, ?_, ?_, ?_⟩
  · intro hfail
    simp [FormatRange, h, hfail]
  · simp [formatLinesOf]
  · intro hc
    simp [formatLinesOf, hc]
    ring
  · intro hc
    simp [formatLinesOf, hc]
  · intro hok hrange
    have hred : FormatRange fmtRange fmtFull (some t) p
        = formatRangedEdits fmtRange p := by
      simp [FormatRange, h, hok, hrange]
    constructor
    · intro hinvalid
      rw [hred]
      simp [formatRangedEdits, hinvalid]
    · intro s hvalid hfmt
      rw [hred]
      simp [formatRangedEdits, hvalid, hfmt]

/-- Closed witness for C4: the sample snapshot parsed successfully, the
sample range ends at a nonzero column, and the sample formatter
succeeds. -/
theorem FormatRange_spec_witness :
    (sampleBuf.parsedSuccessfully = false →
        FormatRange sampleFormatter (some "full") (some sampleTracker)
          sampleFormattingParams = [])
    ∧ (formatLinesOf sampleFormattingParams).min
        = sampleFormattingParams.range.start.line + 1
    ∧ (sampleFormattingParams.range.endPos.character > 0 →
        (formatLinesOf sampleFormattingParams).max
          = sampleFormattingParams.range.endPos.line + 2)
    ∧ (¬ sampleFormattingParams.range.endPos.character > 0 →
        (formatLinesOf sampleFormattingParams).max
          = sampleFormattingParams.range.endPos.line + 1)
    ∧ (sampleBuf.parsedSuccessfully = true →
        sampleFormattingParams.hasRange = true →
        ((formatLinesOf sampleFormattingParams).valid = false →
            FormatRange sampleFormatter (some "full") (some sampleTracker)
              sampleFormattingParams = [])
        ∧ (∀ s : String,
            (formatLinesOf sampleFormattingParams).valid = true →
            sampleFormatter (formatLinesOf sampleFormattingParams) = some s →
            FormatRange sampleFormatter (some "full") (some sampleTracker)
              sampleFormattingParams
              = [{ range :=
                     { start :=
                         { line := (formatLinesOf sampleFormattingParams).min
                             - 1,
                           character := 0 },
                       endPos :=
                         { line := (formatLinesOf sampleFormattingParams).max
                             - 1,
                           character := 0 } },
                   newText := s }])) :=
  FormatRange_spec sampleFormatter (some "full") sampleTracker sampleBuf
    sampleFormattingParams rfl

theorem DocumentSymbol.not_mem_children (d : DocumentSymbol) :
    d ∉ d.children := by
  intro hmem
  have hsz := List.sizeOf_lt_of_mem hmem
  cases d with
  | mk n k c =>
    simp only [DocumentSymbol.children] at hsz
    simp only [DocumentSymbol.mk.sizeOf_spec] at hsz
    omega

/-- C6: the outline returned for a document is exactly the children of the
synthetic top-level file node; in particular the file node itself is never
in the result, and a single-module file (one child under the file node)
yields exactly one top-level entry. -/
theorem CreateDocumentSymbolOutline_no_file_node (t : BufferTracker)
    (lg : ParsedBuffer) (p : DocumentSymbolParams)
    (h : t.lastGood = some lg) :
    CreateDocumentSymbolOutline (some t) p = lg.outline.children
    ∧ lg.outline ∉ CreateDocumentSymbolOutline (some t) p
    ∧ (lg.outline.children.length = 1 →
        (CreateDocumentSymbolOutline (some t) p).length = 1) := by
  have heq : CreateDocumentSymbolOutline (some t) p = lg.outline.children := by
    simp only [CreateDocumentSymbolOutline, h]
  refine ⟨heq, ?_, fun h1 => by rw [heq]; exact h1⟩
  rw [heq]
  exact DocumentSymbol.not_mem_children _

/-- Closed witness for C6 at the sample snapshot, whose outline is a file
node wrapping one module node. -/
theorem CreateDocumentSymbolOutline_no_file_node_witness :
    CreateDocumentSymbolOutline (some sampleTracker) sampleDocSymbolParams
      = sampleBuf.outline.children
    ∧ sampleBuf.outline ∉
        CreateDocumentSymbolOutline (some sampleTracker) sampleDocSymbolParams
    ∧ (sampleBuf.outline.children.length = 1 →
        (CreateDocumentSymbolOutline (some sampleTracker)
          sampleDocSymbolParams).length = 1) :=
  CreateDocumentSymbolOutline_no_file_node sampleTracker sampleBuf
    sampleDocSymbolParams rfl

/-- C7: at a non-identifier token `CreateHighlightRanges` returns the empty
list; at an identifier token it returns the range of every stream token
with the same token class and literal text — at least one, since the
occurrence under the cursor is itself in the stream. -/
theorem CreateHighlightRanges_spec (t : BufferTracker) (buf : ParsedBuffer)
    (p : DocumentHighlightParams) (h : t.current = some buf)
    (hmem : buf.text.findTokenAt
        { line := p.position.line, character := p.position.character }
        ∈ buf.text.tokenStream) :
    ((buf.text.findTokenAt
        { line := p.position.line,
          character := p.position.character }).tokenEnum
          ≠ TokenEnum.SymbolIdentifier →
        CreateHighlightRanges (some t) p = [])
    ∧ ((buf.text.findTokenAt
        { line := p.position.line,
          character := p.position.character }).tokenEnum
          = TokenEnum.SymbolIdentifier →
        CreateHighlightRanges (some t) p
          = (buf.text.tokenStream.filter fun tok =>
              tok.tokenEnum == (buf.text.findTokenAt
                { line := p.position.line,
                  character := p.position.character }).tokenEnum
                && tok.text == (buf.text.findTokenAt
                  { line := p.position.line,
                    character := p.position.character }).text).map
              (fun tok => { range := buf.text.getRangeForToken tok })
        ∧ 1 ≤ (CreateHighlightRanges (some t) p).length) := by
  constructor
  · intro hne
    simp [CreateHighlightRanges, h, hne]
  · intro hid
    have heq : CreateHighlightRanges (some t) p
        = (buf.text.tokenStream.filter fun tok =>
            tok.tokenEnum == (buf.text.findTokenAt
              { line := p.position.line,
                character := p.position.character }).tokenEnum
              && tok.text == (buf.text.findTokenAt
                { line := p.position.line,
                  character := p.position.character }).text).map
            (fun tok => { range := buf.text.getRangeForToken tok }) := by
      simp [CreateHighlightRanges, h, hid]
    refine ⟨heq, ?_⟩
    have hself : buf.text.findTokenAt
        { line := p.position.line, character := p.position.character }
        ∈ buf.text.tokenStream.filter fun tok =>
            tok.tokenEnum == (buf.text.findTokenAt
              { line := p.position.line,
                character := p.position.character }).tokenEnum
              && tok.text == (buf.text.findTokenAt
                { line := p.position.line,
                  character := p.position.character }).text := by
      rw [List.mem_filter]
      exact ⟨hmem, by simp⟩
    have hpos : 0 < (CreateHighlightRanges (some t) p).length := by
      rw [heq, List.length_map]
      exact List.length_pos.mpr (List.ne_nil_of_mem hself)
    omega

/-- Closed witness for C7 at the sample snapshot: the cursor resolves to
the identifier token "foo", which occurs twice in the stream. -/
theorem CreateHighlightRanges_spec_witness :
    ((sampleBuf.text.findTokenAt
        { line := sampleHighlightParams.position.line,
          character := sampleHighlightParams.position.character }).tokenEnum
          ≠ TokenEnum.SymbolIdentifier →
        CreateHighlightRanges (some sampleTracker) sampleHighlightParams = [])
    ∧ ((sampleBuf.text.findTokenAt
        { line := sampleHighlightParams.position.line,
          character := sampleHighlightParams.position.character }).tokenEnum
          = TokenEnum.SymbolIdentifier →
        CreateHighlightRanges (some sampleTracker) sampleHighlightParams
          = (sampleBuf.text.tokenStream.filter fun tok =>
              tok.tokenEnum == (sampleBuf.text.findTokenAt
                { line := sampleHighlightParams.position.line,
                  character :=
                    sampleHighlightParams.position.character }).tokenEnum
                && tok.text == (sampleBuf.text.findTokenAt
                  { line := sampleHighlightParams.position.line,
                    character :=
                      sampleHighlightParams.position.character }).text).map
              (fun tok =>
                { range := sampleBuf.text.getRangeForToken tok })
        ∧ 1 ≤ (CreateHighlightRanges (some sampleTracker)
            sampleHighlightParams).length) :=
  CreateHighlightRanges_spec sampleTracker sampleBuf sampleHighlightParams
    rfl (List.mem_cons_self _ _)

/-- C5: on the parse of
"module adder(input [3:0] a, input [3:0] b, output [4:0] sum); endmodule",
`GetModulePorts` yields exactly one descriptor named "adder" with the three
ports a(input,"[3:0]"), b(input,"[3:0]"), sum(output,"[4:0]") in order,
resolved here by tier (a) of the fallback (the explicit port-declaration
list). -/
theorem GetModulePorts_adder :
    GetModulePorts (some adderTracker) "file:///adder.sv"
      = [{ name := "adder",
           ports := [{ name := "a", direction := "input", width := "[3:0]" },
                     { name := "b", direction := "input", width := "[3:0]" },
                     { name := "sum", direction := "output",
                       width := "[4:0]" }] }] := by
  rfl

/-- C10: for a module whose header lists only bare port names, the
bare-port-reference fallback exists only in `GetModulePorts`:
`GetModuleInfo` reports an empty port list for the same snapshot while
`GetModulePorts` reports the two "unknown"-direction width-"1" ports, so
the two operations return different port lists. -/
theorem GetModuleInfo_non_ansi_ports_empty :
    (GetModuleInfo (some nonAnsiTracker) "file:///non_ansi.sv").map
        ModuleInfoJson.ports = [[]]
    ∧ (GetModulePorts (some nonAnsiTracker) "file:///non_ansi.sv").map
        ModulePortsJson.ports
      = [[{ name := "a", direction := "unknown", width := "1" },
          { name := "b", direction := "unknown", width := "1" }]]
    ∧ (GetModuleInfo (some nonAnsiTracker) "file:///non_ansi.sv").map
        ModuleInfoJson.ports
      ≠ (GetModulePorts (some nonAnsiTracker) "file:///non_ansi.sv").map
          ModulePortsJson.ports := by
  refine ⟨rfl, rfl, ?_⟩
  decide
